import Mathlib

/-!
Verification of the similarity-ranked response-suggestion core of the
whatsapp-mcp repository.

The development shallowly embeds the JavaScript sources:

* `SimilarityService` (`formatSimilarityResults`, `findSimilar`,
  `findSimilarBusinessResponses`, `calculateCosineSimilarity`) from
  `src/services/similarity.js`;
* `Database.getConversationContext` from `src/backend/src/models/database.js`;
* `MessagesController.getSuggestions` from
  `src/controllers/messagesController.js`.

Floating-point numbers are modelled as exact rationals (`ℚ`) except for the
cosine-similarity utility, which needs a square root and is modelled over `ℝ`.
JavaScript truthiness that matters to the control flow (the falsiness of the
number `0` and of `undefined`, and the coercion of `null` to `0` in `<`
comparisons) is modelled explicitly where the source relies on it.
-/

namespace WhatsappMcp

/-- The slice of a Chroma metadata object that the suggestion path inspects.
A record carries the `is_business_response` key or not (`none` models a
missing key, mirroring a plain `{}` object). -/
structure Metadata where
  is_business_response : Option Bool
deriving Repr, DecidableEq

/-- The empty metadata object `{}` used as the fallback `metadatas[index] || {}`. -/
def emptyMetadata : Metadata := ⟨none⟩

/-- One element of the list produced by `formatSimilarityResults`:
`{ document, metadata, similarity }`, where `similarity` is `null` (`none`)
when distances were not included or the raw distance was falsy. -/
structure SimResult where
  document : String
  metadata : Metadata
  similarity : Option ℚ
deriving Repr, DecidableEq

/-- The metadata filters that actually occur in the source: the default `{}`
and the fixed `{ is_business_response: { $eq: true } }` of
`findSimilarBusinessResponses`. -/
inductive WhereClause
  | noFilter
  | businessOnly
deriving Repr, DecidableEq

/-- The slice of a Chroma query response read by `formatSimilarityResults`,
already indexed at the single query (`[0]`):
`documents = none` models `!results.documents || !results.documents[0]`
(absent field or empty outer array); `distances = none` models an absent
`results.distances` field. -/
structure QueryResponse where
  documents : Option (List String)
  metadatas : List Metadata
  distances : Option (List ℚ)
deriving Repr

/-- The argument object passed to `collection.query`. -/
structure Query where
  queryEmbedding : List ℚ
  nResults : ℕ
  whereClause : WhereClause
deriving Repr, DecidableEq

/-- The configuration read in the `SimilarityService` constructor:
`SIMILARITY_THRESHOLD` (default `0.7`) and `MAX_RESULTS` (default `3`). -/
structure Service where
  similarityThreshold : ℚ := 7/10
  maxResults : ℕ := 3
deriving Repr, DecidableEq

/-- The options object of `findSimilar`; `none` fields model absent keys, so
the destructuring defaults apply.  `minSimilarity` is included so that the
claimed per-call threshold override can be stated; the source never reads it. -/
structure FindOptions where
  nResults : Option ℕ := none
  whereClause : Option WhereClause := none
  includeDistances : Option Bool := none
  minSimilarity : Option ℚ := none
deriving Repr, DecidableEq

/-- JavaScript comparison `similarity < threshold` where `similarity` may be
`null`: `null` is coerced to `0` by `<`. -/
def simLt (s : Option ℚ) (t : ℚ) : Bool :=
  match s with
  | none => decide (0 < t)
  | some x => decide (x < t)

/-- The similarity assigned to one row:
`includeDistances && distances[index] ? 1 - distances[index] : null`.
`d? = none` models an absent `distances[index]` (falsy `undefined`), and a
present distance `0` is falsy as well, so both yield `null`. -/
def rowSim (includeD : Bool) (d? : Option ℚ) : Option ℚ :=
  match includeD, d? with
  | true, some d => if d = 0 then none else some (1 - d)
  | _, _ => none

/-- The body of `documents.map((doc, index) => ...).filter(Boolean)` in
`formatSimilarityResults`, walking the three parallel arrays head-wise
(head/tail access at recursion depth `i` equals `l[index]` access at
`index = i`).  A row is dropped when
`includeDistances && result.similarity < threshold`. -/
def formatRows (th : ℚ) (includeD : Bool) :
    List String → List Metadata → List ℚ → List SimResult
  | [], _, _ => []
  | doc :: docs, mds, dists =>
    if includeD && simLt (rowSim includeD dists.head?) th then
      formatRows th includeD docs mds.tail dists.tail
    else
      ⟨doc, mds.headD emptyMetadata, rowSim includeD dists.head?⟩ ::
        formatRows th includeD docs mds.tail dists.tail

/-- `SimilarityService.formatSimilarityResults(results, includeDistances)`. -/
def formatSimilarityResults (th : ℚ) (results : QueryResponse)
    (includeDistances : Bool) : List SimResult :=
  match results.documents with
  | none => []
  | some docs => formatRows th includeDistances docs results.metadatas (results.distances.getD [])

/-- `SimilarityService.findSimilar(queryEmbedding, options)`.  The external
Chroma collection is a parameter `index` mapping the issued query to its
response; the method builds the query from the destructured options
(`nResults = this.maxResults`, `whereClause = {}`, `includeDistances = true`
as defaults) and formats the response. -/
def findSimilar (svc : Service) (index : Query → QueryResponse)
    (queryEmbedding : List ℚ) (options : FindOptions) : List SimResult :=
  formatSimilarityResults svc.similarityThreshold
    (index ⟨queryEmbedding, options.nResults.getD svc.maxResults,
      options.whereClause.getD WhereClause.noFilter⟩)
    (options.includeDistances.getD true)

/-- `SimilarityService.findSimilarBusinessResponses(queryEmbedding, options)`:
delegates to `findSimilar` with the where clause overridden by
`{ is_business_response: { $eq: true } }` (the spread puts `whereClause`
after `...options`, so it always wins). -/
def findSimilarBusinessResponses (svc : Service) (index : Query → QueryResponse)
    (queryEmbedding : List ℚ) (options : FindOptions) : List SimResult :=
  findSimilar svc index queryEmbedding
    { options with whereClause := some WhereClause.businessOnly }

/-! ### Helper lemmas about `formatRows` -/

/-- With distances included and a positive threshold, every surviving row
records `some (1 - d)` for a nonzero distance `d` of the response that passed
the threshold test. -/
theorem formatRows_mem_sim (th : ℚ) (ht : 0 < th) :
    ∀ (docs : List String) (mds : List Metadata) (dists : List ℚ) (r : SimResult),
      r ∈ formatRows th true docs mds dists →
      ∃ d ∈ dists, d ≠ 0 ∧ r.similarity = some (1 - d) ∧ ¬(1 - d < th) := by
  intro docs
  induction docs with
  | nil => intro mds dists r hr; simp [formatRows] at hr
  | cons doc docs ih =>
    intro mds dists r hr
    rcases dists with _ | ⟨d, ds⟩
    · -- no distance at this index: the row has `null` similarity and is
      -- dropped since `null < th` coerces to `0 < th`
      rw [formatRows, show (true && simLt (rowSim true (List.head? ([] : List ℚ))) th) = true by
        simp [rowSim, simLt, decide_eq_true ht]] at hr
      simp only [if_true, List.tail_nil] at hr
      obtain ⟨e, he, _⟩ := ih mds.tail [] r hr
      simp at he
    · by_cases hd0 : d = 0
      · subst hd0
        rw [formatRows, show (true && simLt (rowSim true (List.head? ((0 : ℚ) :: ds))) th) = true by
          simp [rowSim, simLt, decide_eq_true ht]] at hr
        simp only [if_true, List.tail_cons] at hr
        obtain ⟨e, he, h⟩ := ih mds.tail ds r hr
        exact ⟨e, List.mem_cons_of_mem _ he, h⟩
      · by_cases hlt : (1 - d) < th
        · rw [formatRows, show (true && simLt (rowSim true (List.head? (d :: ds))) th) = true by
            simp [rowSim, simLt, hd0, decide_eq_true hlt]] at hr
          simp only [if_true, List.tail_cons] at hr
          obtain ⟨e, he, h⟩ := ih mds.tail ds r hr
          exact ⟨e, List.mem_cons_of_mem _ he, h⟩
        · rw [formatRows, show (true && simLt (rowSim true (List.head? (d :: ds))) th) = false by
            simp [rowSim, simLt, hd0, decide_eq_false hlt]] at hr
          simp only [Bool.false_eq_true, if_false, List.tail_cons, List.mem_cons] at hr
          rcases hr with hr | hr
          · exact ⟨d, List.mem_cons_self _ _, hd0, by simp [hr, rowSim, hd0], hlt⟩
          · obtain ⟨e, he, h⟩ := ih mds.tail ds r hr
            exact ⟨e, List.mem_cons_of_mem _ he, h⟩

/-! ### Claim C9 -/

/-- Claim C9 (confirmed): for every query against an index whose response has
zero matching documents (absent `documents` field, empty outer array, or an
empty first document list), `findSimilar` returns `[]`, not an error. -/
theorem claim_C9_empty_index (svc : Service) (index : Query → QueryResponse)
    (q : List ℚ) (opts : FindOptions)
    (h : ∀ qr : Query, (index qr).documents = none ∨ (index qr).documents = some []) :
    findSimilar svc index q opts = [] := by
  unfold findSimilar formatSimilarityResults
  rcases h ⟨q, opts.nResults.getD svc.maxResults, opts.whereClause.getD WhereClause.noFilter⟩
    with h0 | h0 <;> rw [h0]
  rfl

/-- An index that always answers with an absent document list. -/
def emptyIndex : Query → QueryResponse := fun _ => ⟨none, [], none⟩

/-- Witness for C9 at a concrete empty index. -/
theorem claim_C9_empty_index_witness :
    (∀ qr : Query, (emptyIndex qr).documents = none ∨ (emptyIndex qr).documents = some []) ∧
      findSimilar {} emptyIndex [1] {} = [] :=
  ⟨fun _ => Or.inl rfl,
    claim_C9_empty_index {} emptyIndex [1] {} (fun _ => Or.inl rfl)⟩

/-! ### Claim C1 -/

/-- Claim C1 (corrected): with distances included and a positive configured
threshold, every result returned by `findSimilar` carries a non-null
similarity at least the service's configured threshold.  A caller-supplied
`options.minSimilarity` is never read: changing it does not change the result,
so the filter never uses it (the original claim's "options.minSimilarity if
given" clause fails, see the counterexample). -/
theorem claim_C1_threshold (svc : Service) (index : Query → QueryResponse)
    (q : List ℚ) (opts : FindOptions)
    (ht : 0 < svc.similarityThreshold)
    (hincl : opts.includeDistances.getD true = true) :
    (∀ r ∈ findSimilar svc index q opts,
        ∃ s, r.similarity = some s ∧ svc.similarityThreshold ≤ s) ∧
      (∀ ms : Option ℚ,
        findSimilar svc index q { opts with minSimilarity := ms } =
          findSimilar svc index q opts) := by
  constructor
  · intro r hr
    unfold findSimilar formatSimilarityResults at hr
    rw [hincl] at hr
    rcases hdocs : (index ⟨q, opts.nResults.getD svc.maxResults,
        opts.whereClause.getD WhereClause.noFilter⟩).documents with _ | docs
    · rw [hdocs] at hr; simp at hr
    · rw [hdocs] at hr
      obtain ⟨d, _, _, hsim, hge⟩ := formatRows_mem_sim svc.similarityThreshold ht docs _ _ r hr
      exact ⟨1 - d, hsim, le_of_not_lt hge⟩
  · intro ms
    rfl

/-- The index response used to refute the `minSimilarity` clause of C1:
one document at distance `0.25`, hence similarity `0.75`. -/
def respC1 : QueryResponse :=
  { documents := some ["reply"], metadatas := [emptyMetadata], distances := some [1/4] }

/-- Counterexample to claim C1 as stated: calling `findSimilar` with
`options.minSimilarity = 0.9` on a default-configured service still returns
the similarity-`0.75` result, even though `0.75 < 0.9`; the claimed per-call
threshold is not honoured. -/
theorem claim_C1_counterexample :
    (findSimilar {} (fun _ => respC1) [1]
        { minSimilarity := some (9/10) }).map SimResult.similarity = [some (3/4)] ∧
      (3 : ℚ)/4 < 9/10 := by
  constructor
  · norm_num [findSimilar, formatSimilarityResults, respC1, formatRows, rowSim, simLt]
  · norm_num

/-- Witness for the amended C1 at the same concrete index. -/
theorem claim_C1_threshold_witness :
    (0 : ℚ) < (Service.similarityThreshold {}) ∧
      ((FindOptions.includeDistances {}).getD true = true) ∧
      (∀ r ∈ findSimilar {} (fun _ => respC1) [1] {},
        ∃ s, r.similarity = some s ∧ Service.similarityThreshold {} ≤ s) :=
  ⟨by norm_num, rfl,
    (claim_C1_threshold {} (fun _ => respC1) [1] {} (by norm_num) rfl).1⟩

/-! ### Claim C2 -/

/-- `formatRows` never reorders: if the response distances are ascending, the
surviving rows are descending in similarity. -/
theorem formatRows_sorted_of_dists_sorted (th : ℚ) (ht : 0 < th) :
    ∀ (docs : List String) (mds : List Metadata) (dists : List ℚ),
      List.Sorted (fun a b : ℚ => a ≤ b) dists →
      List.Sorted (fun r₁ r₂ : SimResult => r₂.similarity.getD 0 ≤ r₁.similarity.getD 0)
        (formatRows th true docs mds dists) := by
  intro docs
  induction docs with
  | nil => intro mds dists _; simp [formatRows]
  | cons doc docs ih =>
    intro mds dists hs
    rcases dists with _ | ⟨d, ds⟩
    · rw [formatRows, show (true && simLt (rowSim true (List.head? ([] : List ℚ))) th) = true by
        simp [rowSim, simLt, decide_eq_true ht]]
      simpa using ih mds.tail [] List.sorted_nil
    · have hd_all : ∀ e ∈ ds, d ≤ e := (List.sorted_cons.mp hs).1
      have hs2 : List.Sorted (fun a b : ℚ => a ≤ b) ds := (List.sorted_cons.mp hs).2
      by_cases hd0 : d = 0
      · subst hd0
        rw [formatRows, show (true && simLt (rowSim true (List.head? ((0 : ℚ) :: ds))) th) = true by
          simp [rowSim, simLt, decide_eq_true ht]]
        simpa using ih mds.tail ds hs2
      · by_cases hlt : (1 - d) < th
        · rw [formatRows, show (true && simLt (rowSim true (List.head? (d :: ds))) th) = true by
            simp [rowSim, simLt, hd0, decide_eq_true hlt]]
          simpa using ih mds.tail ds hs2
        · rw [formatRows, show (true && simLt (rowSim true (List.head? (d :: ds))) th) = false by
            simp [rowSim, simLt, hd0, decide_eq_false hlt]]
          simp only [Bool.false_eq_true, if_false, List.tail_cons]
          rw [List.sorted_cons]
          constructor
          · intro r hr
            obtain ⟨e, he, _, hsim, _⟩ := formatRows_mem_sim th ht docs mds.tail ds r hr
            have : rowSim true (List.head? (d :: ds)) = some (1 - d) := by
              simp [rowSim, hd0]
            simp only [this, hsim, Option.getD_some]
            have := hd_all e he
            linarith
          · exact ih mds.tail ds hs2

/-- Claim C2 (corrected): `findSimilar` performs no sorting of its own — it
preserves the order of the index response.  Consequently, whenever the index
response lists distances in ascending order (as a nearest-neighbour store
does), the returned results are sorted by descending similarity, ties keeping
their original index order because no reordering ever occurs.  For an
arbitrary index response the claimed descending order fails
(see the counterexample). -/
theorem claim_C2_ordering (svc : Service) (index : Query → QueryResponse)
    (q : List ℚ) (opts : FindOptions)
    (ht : 0 < svc.similarityThreshold)
    (hincl : opts.includeDistances.getD true = true)
    (hsorted : ∀ qr : Query, List.Sorted (fun a b : ℚ => a ≤ b) ((index qr).distances.getD [])) :
    List.Sorted (fun r₁ r₂ : SimResult => r₂.similarity.getD 0 ≤ r₁.similarity.getD 0)
      (findSimilar svc index q opts) := by
  unfold findSimilar formatSimilarityResults
  rw [hincl]
  rcases hdocs : (index ⟨q, opts.nResults.getD svc.maxResults,
      opts.whereClause.getD WhereClause.noFilter⟩).documents with _ | docs
  · exact List.sorted_nil
  · exact formatRows_sorted_of_dists_sorted svc.similarityThreshold ht docs _ _
      (hsorted ⟨q, opts.nResults.getD svc.maxResults, opts.whereClause.getD WhereClause.noFilter⟩)

/-- An index response whose two hits arrive in descending-distance order
(distances `0.2` then `0.1`, similarities `0.8` then `0.9`). -/
def respC2 : QueryResponse :=
  { documents := some ["a", "b"], metadatas := [emptyMetadata, emptyMetadata],
    distances := some [1/5, 1/10] }

/-- Counterexample to claim C2 as stated: for this index response the
returned list is `[0.8, 0.9]`, and the adjacent pair violates descending
order (`0.8 < 0.9`); `findSimilar` did not sort. -/
theorem claim_C2_counterexample :
    (findSimilar {} (fun _ => respC2) [1] {}).map SimResult.similarity
        = [some (4/5), some (9/10)] ∧
      (4 : ℚ)/5 < 9/10 := by
  constructor
  · norm_num [findSimilar, formatSimilarityResults, respC2, formatRows, rowSim, simLt]
  · norm_num

/-- Witness for the amended C2 at a concrete ascending-distance response. -/
theorem claim_C2_ordering_witness :
    (∀ qr : Query,
        List.Sorted (fun a b : ℚ => a ≤ b) (((fun _ => respC1) qr : QueryResponse).distances.getD [])) ∧
      List.Sorted (fun r₁ r₂ : SimResult => r₂.similarity.getD 0 ≤ r₁.similarity.getD 0)
        (findSimilar {} (fun _ => respC1) [1] {}) := by
  have hs : ∀ qr : Query,
      List.Sorted (fun a b : ℚ => a ≤ b) (((fun _ => respC1) qr : QueryResponse).distances.getD []) := by
    intro _
    rw [show ((respC1 : QueryResponse).distances.getD []) = [1/4] from rfl]
    exact List.sorted_singleton _
  exact ⟨hs, claim_C2_ordering {} (fun _ => respC1) [1] {} (by norm_num) rfl hs⟩

/-! ### Claim C10 -/

/-- Claim C10 (confirmed): a response entry at distance exactly `0` is always
dropped: the falsy `0` makes its similarity `null`, and `null < threshold`
(with `null` coerced to `0` and a positive threshold) discards the row.
Formally, the formatted output is unchanged when the entry at such an index
is deleted from all three parallel arrays, so the exact match is never
returned. -/
theorem claim_C10_exact_match_excluded (th : ℚ) (ht : 0 < th) :
    ∀ (i : ℕ) (docs : List String) (mds : List Metadata) (dists : List ℚ),
      dists.get? i = some 0 →
      formatRows th true docs mds dists =
        formatRows th true (docs.eraseIdx i) (mds.eraseIdx i) (dists.eraseIdx i) := by
  intro i
  induction i with
  | zero =>
    intro docs mds dists h0
    rcases dists with _ | ⟨d, ds⟩
    · simp at h0
    · simp only [List.get?_cons_zero, Option.some.injEq] at h0
      subst h0
      rcases docs with _ | ⟨doc, docs⟩
      · simp [formatRows]
      · rw [formatRows, show (true && simLt (rowSim true (List.head? ((0 : ℚ) :: ds))) th) = true by
          simp [rowSim, simLt, decide_eq_true ht]]
        simp only [if_true, List.tail_cons, List.eraseIdx_cons_zero]
        have : mds.eraseIdx 0 = mds.tail := by
          rcases mds with _ | ⟨m, ms⟩ <;> rfl
        rw [this]
  | succ i ih =>
    intro docs mds dists h0
    rcases dists with _ | ⟨d, ds⟩
    · simp at h0
    · simp only [List.get?_cons_succ] at h0
      rcases docs with _ | ⟨doc, docs⟩
      · simp [formatRows]
      · rw [List.eraseIdx_cons_succ, List.eraseIdx_cons_succ, formatRows, formatRows]
        have h₁ : (mds.eraseIdx (i + 1)).headD emptyMetadata = mds.headD emptyMetadata := by
          rcases mds with _ | ⟨m, ms⟩ <;> simp [List.eraseIdx]
        have h₂ : (mds.eraseIdx (i + 1)).tail = mds.tail.eraseIdx i := by
          rcases mds with _ | ⟨m, ms⟩ <;> simp [List.eraseIdx]
        rw [h₁, h₂]
        simp only [List.head?_cons, List.tail_cons]
        rw [ih docs mds.tail ds h0]

/-- Witness for C10: the head entry of a concrete response sits at distance
`0` and deleting it leaves the output unchanged. -/
theorem claim_C10_exact_match_excluded_witness :
    List.get? [(0 : ℚ), 1/10] 0 = some 0 ∧
      formatRows (7/10) true ["exact", "far"] [] [0, 1/10] =
        formatRows (7/10) true (["exact", "far"].eraseIdx 0)
          (([] : List Metadata).eraseIdx 0) ([(0 : ℚ), 1/10].eraseIdx 0) :=
  ⟨rfl, claim_C10_exact_match_excluded (7/10) (by norm_num) 0 ["exact", "far"] [] [0, 1/10] rfl⟩

/-! ### Claim C6 -/

/-- A response honours the business-only filter when its metadata column
covers its documents and every metadata record is flagged
`is_business_response = true`. -/
def respBusinessOnly (resp : QueryResponse) : Prop :=
  (resp.documents.getD []).length ≤ resp.metadatas.length ∧
    ∀ md ∈ resp.metadatas, md.is_business_response = some true

/-- Every formatted row takes its metadata from the aligned metadata column
when that column covers the documents. -/
theorem formatRows_mem_metadata (th : ℚ) (includeD : Bool) :
    ∀ (docs : List String) (mds : List Metadata) (dists : List ℚ) (r : SimResult),
      r ∈ formatRows th includeD docs mds dists →
      docs.length ≤ mds.length →
      (∀ md ∈ mds, md.is_business_response = some true) →
      r.metadata.is_business_response = some true := by
  intro docs
  induction docs with
  | nil => intro mds dists r hr _ _; simp [formatRows] at hr
  | cons doc docs ih =>
    intro mds dists r hr hlen hmd
    rcases mds with _ | ⟨m, ms⟩
    · simp at hlen
    · rw [formatRows] at hr
      simp only [List.tail_cons, List.headD_cons] at hr
      have hlen2 : docs.length ≤ ms.length := by
        simpa using Nat.le_of_succ_le_succ (by simpa using hlen)
      have hmd2 : ∀ md ∈ ms, md.is_business_response = some true :=
        fun md hm => hmd md (List.mem_cons_of_mem _ hm)
      by_cases hc : (includeD && simLt (rowSim includeD dists.head?) th) = true
      · rw [if_pos hc] at hr
        exact ih ms dists.tail r hr hlen2 hmd2
      · rw [if_neg hc] at hr
        rcases List.mem_cons.mp hr with hr | hr
        · rw [hr]
          exact hmd m (List.mem_cons_self _ _)
        · exact ih ms dists.tail r hr hlen2 hmd2

/-- Claim C6 (confirmed): `findSimilarBusinessResponses` is exactly
`findSimilar` with the where clause fixed to
`is_business_response == true` (overriding any caller-supplied clause), and —
provided the index honours that filter — every returned result's metadata has
`is_business_response = true`, so no customer message is ever returned. -/
theorem claim_C6_business_filter :
    (∀ (svc : Service) (index : Query → QueryResponse) (q : List ℚ) (opts : FindOptions),
        findSimilarBusinessResponses svc index q opts =
          findSimilar svc index q { opts with whereClause := some WhereClause.businessOnly }) ∧
      (∀ (svc : Service) (index : Query → QueryResponse) (q : List ℚ) (opts : FindOptions),
        (∀ qr : Query, qr.whereClause = WhereClause.businessOnly → respBusinessOnly (index qr)) →
        ∀ r ∈ findSimilarBusinessResponses svc index q opts,
          r.metadata.is_business_response = some true) := by
  constructor
  · intro svc index q opts; rfl
  · intro svc index q opts hidx r hr
    unfold findSimilarBusinessResponses findSimilar formatSimilarityResults at hr
    dsimp only at hr
    simp only [Option.getD_some] at hr
    have hq := hidx ⟨q, opts.nResults.getD svc.maxResults, WhereClause.businessOnly⟩ rfl
    rcases hdocs : (index ⟨q, opts.nResults.getD svc.maxResults,
        WhereClause.businessOnly⟩).documents with _ | docs
    · rw [hdocs] at hr; simp at hr
    · rw [hdocs] at hr
      obtain ⟨hlen, hmd⟩ := hq
      rw [hdocs] at hlen
      exact formatRows_mem_metadata svc.similarityThreshold _ docs _ _ r hr (by simpa using hlen) hmd

/-- Metadata of a historical business reply. -/
def bizMetadata : Metadata := ⟨some true⟩

/-- A business-only response. -/
def respBiz : QueryResponse :=
  { documents := some ["thanks"], metadatas := [bizMetadata], distances := some [1/10] }

/-- A mixed customer/business response (what an unfiltered query returns). -/
def respMixed : QueryResponse :=
  { documents := some ["hello", "thanks"], metadatas := [emptyMetadata, bizMetadata],
    distances := some [1/10, 1/5] }

/-- A mixed index that honours the business-only where clause. -/
def bizIndex : Query → QueryResponse := fun qr =>
  match qr.whereClause with
  | WhereClause.businessOnly => respBiz
  | WhereClause.noFilter => respMixed

/-- Witness for C6 against the concrete mixed index. -/
theorem claim_C6_business_filter_witness :
    (∀ qr : Query, qr.whereClause = WhereClause.businessOnly → respBusinessOnly (bizIndex qr)) ∧
      findSimilarBusinessResponses {} bizIndex [1] {} =
        findSimilar {} bizIndex [1] { whereClause := some WhereClause.businessOnly } ∧
      ∀ r ∈ findSimilarBusinessResponses {} bizIndex [1] {},
        r.metadata.is_business_response = some true := by
  have hh : ∀ qr : Query, qr.whereClause = WhereClause.businessOnly → respBusinessOnly (bizIndex qr) := by
    intro qr hq
    have hb : bizIndex qr = respBiz := by
      unfold bizIndex
      rw [hq]
    rw [hb]
    exact ⟨by simp [respBiz], by simp [respBiz, bizMetadata]⟩
  exact ⟨hh, claim_C6_business_filter.1 {} bizIndex [1] {},
    claim_C6_business_filter.2 {} bizIndex [1] {} hh⟩

/-! ### Database: `getConversationContext` (src/backend/src/models/database.js)

A SQLite `messages` table is a list of rows.  The context query selects the
rows of the conversation whose timestamp is at most the target's (the scalar
subquery looking up the target's timestamp; if the target row is missing the
subquery is `NULL` and the comparison excludes every row), orders them by
`timestamp DESC`, limits to `contextSize * 2 + 1`, and the JS then reverses
into chronological order. -/

/-- One row of the `messages` table (the columns the context query uses). -/
structure Message where
  id : String
  chat_jid : String
  timestamp : ℤ
  content : String
  is_from_me : Bool
deriving Repr, DecidableEq

/-- The `ORDER BY timestamp DESC` comparison on rows. -/
def tsGe (a b : Message) : Prop := b.timestamp ≤ a.timestamp

instance : DecidableRel tsGe :=
  fun a b => inferInstanceAs (Decidable (b.timestamp ≤ a.timestamp))

instance : IsTotal Message tsGe := ⟨fun a b => le_total b.timestamp a.timestamp⟩

instance : IsTrans Message tsGe := ⟨fun _ _ _ hab hbc => le_trans hbc hab⟩

/-- `Database.getConversationContext(messageId, chatJid, contextSize)`. -/
def getConversationContext (db : List Message) (messageId chatJid : String)
    (contextSize : ℕ := 5) : List Message :=
  match db.find? (fun m => m.id == messageId && m.chat_jid == chatJid) with
  | none => []
  | some target =>
    (((List.insertionSort tsGe
        (db.filter (fun m => m.chat_jid == chatJid && decide (m.timestamp ≤ target.timestamp)))).take
      (contextSize * 2 + 1)).reverse)

/-! ### Claim C4 -/

/-- A one-row table used in the concrete context examples. -/
def msgW1 : Message := ⟨"m1", "c", 1, "hello", false⟩

/-- Counterexample to claim C4 as stated: for a `messageId` that does not
exist in the conversation, `getConversationContext` succeeds with the empty
list — the `NULL` subquery matches no rows — rather than failing with a
`MessageNotFound` error (the code has no error path for a missing target at
all). -/
theorem claim_C4_counterexample :
    getConversationContext [msgW1] "missing" "c" 5 = [] := by decide

/-- Claim C4 (corrected): when the target message does not exist in the given
conversation, `getConversationContext` returns the empty list successfully;
no `MessageNotFound` error is raised. -/
theorem claim_C4_missing_message (db : List Message) (mid cj : String) (cs : ℕ)
    (h : ∀ m ∈ db, ¬(m.id = mid ∧ m.chat_jid = cj)) :
    getConversationContext db mid cj cs = [] := by
  have hfind : db.find? (fun m => m.id == mid && m.chat_jid == cj) = none :=
    List.find?_eq_none.mpr (by
      intro m hm
      simpa [Bool.and_eq_true, beq_iff_eq, not_and] using h m hm)
  unfold getConversationContext
  rw [hfind]

/-- Witness for the amended C4 at a concrete one-row table. -/
theorem claim_C4_missing_message_witness :
    (∀ m ∈ [msgW1], ¬(m.id = "missing" ∧ m.chat_jid = "c")) ∧
      getConversationContext [msgW1] "missing" "c" 5 = [] :=
  ⟨by decide, claim_C4_missing_message [msgW1] "missing" "c" 5 (by decide)⟩

/-! ### Claim C5 -/

/-- Claim C5 (confirmed): for an existing target message, the context is at
most `2*windowSize + 1` rows, all from the same conversation with timestamp
at most the target's, presented in chronologically ascending order; the
omitted eligible rows are all no newer than every returned row (the query
keeps the most recent slice); and when the conversation has at most
`2*windowSize + 1` eligible rows, all of them are returned. -/
theorem claim_C5_context_window (db : List Message) (mid cj : String) (w : ℕ)
    (target : Message)
    (htarget : db.find? (fun m => m.id == mid && m.chat_jid == cj) = some target) :
    (getConversationContext db mid cj w).length ≤ 2 * w + 1 ∧
      (∀ m ∈ getConversationContext db mid cj w,
        m.chat_jid = cj ∧ m.timestamp ≤ target.timestamp) ∧
      List.Sorted (fun a b : Message => a.timestamp ≤ b.timestamp)
        (getConversationContext db mid cj w) ∧
      (∀ m ∈ db.filter (fun m => m.chat_jid == cj && decide (m.timestamp ≤ target.timestamp)),
        m ∉ getConversationContext db mid cj w →
        ∀ x ∈ getConversationContext db mid cj w, m.timestamp ≤ x.timestamp) ∧
      ((db.filter (fun m => m.chat_jid == cj && decide (m.timestamp ≤ target.timestamp))).length
          ≤ 2 * w + 1 →
        (getConversationContext db mid cj w).Perm
          (db.filter (fun m => m.chat_jid == cj && decide (m.timestamp ≤ target.timestamp)))) := by
  have hout : getConversationContext db mid cj w =
      ((List.insertionSort tsGe
        (db.filter (fun m => m.chat_jid == cj && decide (m.timestamp ≤ target.timestamp)))).take
        (w * 2 + 1)).reverse := by
    unfold getConversationContext
    rw [htarget]
  have hsorted : List.Sorted tsGe (List.insertionSort tsGe
      (db.filter (fun m => m.chat_jid == cj && decide (m.timestamp ≤ target.timestamp)))) :=
    List.sorted_insertionSort tsGe _
  have hperm : (List.insertionSort tsGe
      (db.filter (fun m => m.chat_jid == cj && decide (m.timestamp ≤ target.timestamp)))).Perm
      (db.filter (fun m => m.chat_jid == cj && decide (m.timestamp ≤ target.timestamp))) :=
    List.perm_insertionSort tsGe _
  refine ⟨?_, ?_, ?_, ?_, ?_⟩
  · rw [hout, List.length_reverse]
    have := List.length_take_le (w * 2 + 1) (List.insertionSort tsGe
      (db.filter (fun m => m.chat_jid == cj && decide (m.timestamp ≤ target.timestamp))))
    omega
  · intro m hm
    rw [hout, List.mem_reverse] at hm
    have hm2 := hperm.mem_iff.mp (List.Sublist.mem hm (List.take_sublist _ _))
    have := (List.mem_filter.mp hm2).2
    simpa [Bool.and_eq_true, beq_iff_eq] using this
  · rw [hout]
    exact List.pairwise_reverse.mpr
      (List.Pairwise.sublist (List.take_sublist _ _) hsorted)
  · intro m hm hnot x hx
    rw [hout, List.mem_reverse] at hnot hx
    have hms : m ∈ (List.insertionSort tsGe
        (db.filter (fun m => m.chat_jid == cj && decide (m.timestamp ≤ target.timestamp)))) :=
      hperm.mem_iff.mpr hm
    have hsp : List.Pairwise tsGe
        ((List.insertionSort tsGe
          (db.filter (fun m => m.chat_jid == cj && decide (m.timestamp ≤ target.timestamp)))).take
            (w * 2 + 1) ++
          (List.insertionSort tsGe
            (db.filter (fun m => m.chat_jid == cj && decide (m.timestamp ≤ target.timestamp)))).drop
            (w * 2 + 1)) := by
      rw [List.take_append_drop]
      exact hsorted
    rw [← List.take_append_drop (w * 2 + 1) (List.insertionSort tsGe
      (db.filter (fun m => m.chat_jid == cj && decide (m.timestamp ≤ target.timestamp)))),
      List.mem_append] at hms
    rcases hms with hms | hms
    · exact absurd hms hnot
    · exact (List.pairwise_append.mp hsp).2.2 x hx m hms
  · intro hlen
    rw [hout]
    have hslen : (List.insertionSort tsGe
        (db.filter (fun m => m.chat_jid == cj && decide (m.timestamp ≤ target.timestamp)))).length ≤
        w * 2 + 1 := by
      rw [hperm.length_eq]
      omega
    rw [List.take_of_length_le hslen]
    exact (List.reverse_perm _).trans hperm

/-- Second row of the three-row sample conversation. -/
def msgW2 : Message := ⟨"m2", "c", 2, "how can I help", true⟩

/-- Third (latest) row of the three-row sample conversation. -/
def msgW3 : Message := ⟨"m3", "c", 3, "thanks", false⟩

/-- A conversation with only three messages. -/
def dbW : List Message := [msgW1, msgW2, msgW3]

/-- Witness for C5, instantiating Scenario F: `windowSize = 5` in a
conversation of three messages returns all three, in chronological order. -/
theorem claim_C5_context_window_witness :
    dbW.find? (fun m => m.id == "m3" && m.chat_jid == "c") = some msgW3 ∧
      getConversationContext dbW "m3" "c" 5 = [msgW1, msgW2, msgW3] ∧
      (getConversationContext dbW "m3" "c" 5).length ≤ 2 * 5 + 1 ∧
      List.Sorted (fun a b : Message => a.timestamp ≤ b.timestamp)
        (getConversationContext dbW "m3" "c" 5) :=
  ⟨rfl, by decide, (claim_C5_context_window dbW "m3" "c" 5 msgW3 rfl).1,
    (claim_C5_context_window dbW "m3" "c" 5 msgW3 rfl).2.2.1⟩

/-! ### Controller: `getSuggestions` (src/controllers/messagesController.js) -/

/-- One conversation group as shaped by
`WhatsAppService.getSimilarConversations`. -/
structure Conversation where
  chat_jid : String
  chat_name : String
  messages : List Message
deriving Repr, DecidableEq

/-- JavaScript `String.prototype.trim()`: strip leading and trailing
whitespace (modelled at the character-list level because it must be
evaluated on concrete inputs). -/
def jsTrim (s : String) : String :=
  String.mk (((s.data.dropWhile Char.isWhitespace).reverse.dropWhile Char.isWhitespace).reverse)

/-- The observable outcome of one `getSuggestions(req, res)` call: the HTTP
status and error code sent, the payload, and which collaborator calls were
reached before the response was produced (an `await` that throws jumps
straight to the `catch`).  For the success response `code` is empty. -/
structure SuggestionsResponse where
  status : ℕ
  code : String
  suggestions : List String
  similar_conversations : List Conversation
  embedCalled : Bool
  similarityCalled : Bool
  conversationsCalled : Bool
deriving Repr, DecidableEq

/-- `MessagesController.getSuggestions`.  The three awaited collaborator
calls (`generateEmbedding`, `findSimilarBusinessResponses`,
`getSimilarConversations`) are parameters giving each call's outcome; the
whole body sits in a single `try/catch` that answers
`500 SUGGESTION_ERROR` on any throw.  `message = none` models an absent
body field; JS `!message` also fires on the empty string, which the
`trim` test subsumes. -/
def getSuggestions (message : Option String)
    (embedResult : Except String (List ℚ))
    (similarResult : Except String (List SimResult))
    (conversationsResult : Except String (List Conversation)) : SuggestionsResponse :=
  match message with
  | none =>
    { status := 400, code := "MISSING_MESSAGE", suggestions := [], similar_conversations := [],
      embedCalled := false, similarityCalled := false, conversationsCalled := false }
  | some msg =>
    if jsTrim msg = "" then
      { status := 400, code := "MISSING_MESSAGE", suggestions := [], similar_conversations := [],
        embedCalled := false, similarityCalled := false, conversationsCalled := false }
    else
      match embedResult with
      | Except.error _ =>
        { status := 500, code := "SUGGESTION_ERROR", suggestions := [],
          similar_conversations := [],
          embedCalled := true, similarityCalled := false, conversationsCalled := false }
      | Except.ok _ =>
        match similarResult with
        | Except.error _ =>
          { status := 500, code := "SUGGESTION_ERROR", suggestions := [],
            similar_conversations := [],
            embedCalled := true, similarityCalled := true, conversationsCalled := false }
        | Except.ok similarResponses =>
          match conversationsResult with
          | Except.error _ =>
            { status := 500, code := "SUGGESTION_ERROR", suggestions := [],
              similar_conversations := [],
              embedCalled := true, similarityCalled := true, conversationsCalled := true }
          | Except.ok convs =>
            { status := 200, code := "",
              suggestions := similarResponses.map SimResult.document,
              similar_conversations := convs,
              embedCalled := true, similarityCalled := true, conversationsCalled := true }

/-! ### Claim C7 -/

/-- Claim C7 (confirmed): a missing, empty or whitespace-only message is
rejected with the 400 `MISSING_MESSAGE` response before any I/O: neither the
embedding function nor the vector index is called, whatever their outcomes
would have been. -/
theorem claim_C7_validation_before_io (message : Option String)
    (embedResult : Except String (List ℚ))
    (similarResult : Except String (List SimResult))
    (conversationsResult : Except String (List Conversation))
    (h : message = none ∨ ∃ s, message = some s ∧ jsTrim s = "") :
    (getSuggestions message embedResult similarResult conversationsResult).status = 400 ∧
      (getSuggestions message embedResult similarResult conversationsResult).code
        = "MISSING_MESSAGE" ∧
      (getSuggestions message embedResult similarResult conversationsResult).embedCalled
        = false ∧
      (getSuggestions message embedResult similarResult conversationsResult).similarityCalled
        = false := by
  rcases h with h | ⟨s, hs, htrim⟩
  · subst h
    exact ⟨rfl, rfl, rfl, rfl⟩
  · subst hs
    simp only [getSuggestions]
    rw [if_pos htrim]
    exact ⟨rfl, rfl, rfl, rfl⟩

/-- Witness for C7 at the whitespace-only message of Scenario C. -/
theorem claim_C7_validation_before_io_witness :
    (some "   " = none ∨ ∃ s, some "   " = some s ∧ jsTrim s = "") ∧
      (getSuggestions (some "   ") (Except.ok [1]) (Except.ok [])
          (Except.ok [])).status = 400 ∧
      (getSuggestions (some "   ") (Except.ok [1]) (Except.ok [])
          (Except.ok [])).embedCalled = false :=
  ⟨Or.inr ⟨"   ", rfl, by decide⟩,
    (claim_C7_validation_before_io (some "   ") (Except.ok [1]) (Except.ok [])
      (Except.ok []) (Or.inr ⟨"   ", rfl, by decide⟩)).1,
    (claim_C7_validation_before_io (some "   ") (Except.ok [1]) (Except.ok [])
      (Except.ok []) (Or.inr ⟨"   ", rfl, by decide⟩)).2.2.1⟩

/-! ### Claim C3 -/

/-- Counterexample to claim C3 as stated: with a valid message, a successful
embedding and a successful similarity lookup, a throwing conversation fetch
makes `getSuggestions` answer `500 SUGGESTION_ERROR` — the single
`try/catch` fails the whole request instead of degrading to
`similarConversations: []`. -/
theorem claim_C3_counterexample :
    (getSuggestions (some "hello") (Except.ok [1]) (Except.ok [])
        (Except.error "db down")).status = 500 ∧
      (getSuggestions (some "hello") (Except.ok [1]) (Except.ok [])
        (Except.error "db down")).code = "SUGGESTION_ERROR" := by
  constructor
  · rw [getSuggestions, if_neg (by decide)]
  · rw [getSuggestions, if_neg (by decide)]

/-- Claim C3 (corrected): if the conversation fetch behind
`getSimilarConversations` throws, `getSuggestions` does not degrade to an
empty `similarConversations` list — the single `try/catch` fails the whole
request with `500 SUGGESTION_ERROR`, exactly as it does for embedding and
similarity failures. -/
theorem claim_C3_conversation_failure_is_fatal (msg : String) (emb : List ℚ)
    (sims : List SimResult) (e : String) (hmsg : jsTrim msg ≠ "") :
    (getSuggestions (some msg) (Except.ok emb) (Except.ok sims)
        (Except.error e)).status = 500 ∧
      (getSuggestions (some msg) (Except.ok emb) (Except.ok sims)
        (Except.error e)).code = "SUGGESTION_ERROR" := by
  constructor
  · rw [getSuggestions, if_neg hmsg]
  · rw [getSuggestions, if_neg hmsg]

/-- Witness for the amended C3 at a concrete failing conversation fetch. -/
theorem claim_C3_conversation_failure_is_fatal_witness :
    jsTrim "hello" ≠ "" ∧
      (getSuggestions (some "hello") (Except.ok [1]) (Except.ok [])
        (Except.error "db down")).status = 500 :=
  ⟨by decide,
    (claim_C3_conversation_failure_is_fatal "hello" [1] [] "db down" (by decide)).1⟩

/-! ### Cosine similarity: `SimilarityService.calculateCosineSimilarity`

The loop accumulates the dot product and the two squared magnitudes in one
pass over the equal-length vectors; the square roots and the division are
real-number operations, so this utility is modelled over `ℝ`. -/

/-- The accumulated `dotProduct` of the loop (`Σ aᵢ·bᵢ` over the common
indices). -/
noncomputable def dotProduct (a b : List ℝ) : ℝ :=
  (List.zipWith (fun x y => x * y) a b).sum

/-- `Math.sqrt` of the accumulated squared magnitude of one vector. -/
noncomputable def magnitude (v : List ℝ) : ℝ :=
  Real.sqrt (dotProduct v v)

/-- `SimilarityService.calculateCosineSimilarity(vectorA, vectorB)`:
length mismatch throws, a zero magnitude short-circuits to `0`, otherwise
the quotient is returned. -/
noncomputable def calculateCosineSimilarity (vectorA vectorB : List ℝ) :
    Except String ℝ :=
  if vectorA.length ≠ vectorB.length then
    Except.error "Vectors must have the same length"
  else if magnitude vectorA = 0 ∨ magnitude vectorB = 0 then
    Except.ok 0
  else
    Except.ok (dotProduct vectorA vectorB / (magnitude vectorA * magnitude vectorB))

/-! ### Claim C8 -/

theorem dotProduct_comm (a b : List ℝ) : dotProduct a b = dotProduct b a := by
  unfold dotProduct
  rw [List.zipWith_comm_of_comm (fun x y => x * y) mul_comm]

theorem dotProduct_self_nonneg (a : List ℝ) : 0 ≤ dotProduct a a := by
  unfold dotProduct
  induction a with
  | nil => simp
  | cons x xs ih =>
    simp only [List.zipWith_cons_cons, List.sum_cons]
    exact add_nonneg (mul_self_nonneg x) ih

theorem zipWith_mul_sum_eq_range :
    ∀ (a b : List ℝ), a.length = b.length →
      (List.zipWith (fun x y => x * y) a b).sum
        = ∑ i ∈ Finset.range a.length, a.getD i 0 * b.getD i 0 := by
  intro a
  induction a with
  | nil => intro b _; simp
  | cons x xs ih =>
    intro b h
    rcases b with _ | ⟨y, ys⟩
    · simp at h
    · simp only [List.zipWith_cons_cons, List.sum_cons, List.length_cons]
      rw [Finset.sum_range_succ']
      simp only [List.getD_cons_succ, List.getD_cons_zero]
      rw [ih ys (by simpa using h)]
      ring

/-- Cauchy-Schwarz for the loop's accumulators. -/
theorem dotProduct_sq_le (a b : List ℝ) (h : a.length = b.length) :
    dotProduct a b ^ 2 ≤ dotProduct a a * dotProduct b b := by
  unfold dotProduct
  rw [zipWith_mul_sum_eq_range a b h, zipWith_mul_sum_eq_range a a rfl,
    zipWith_mul_sum_eq_range b b rfl, ← h]
  have hcs := Finset.sum_mul_sq_le_sq_mul_sq (Finset.range a.length)
    (fun i => a.getD i 0) (fun i => b.getD i 0)
  simpa only [pow_two] using hcs

/-- Claim C8 (confirmed): `calculateCosineSimilarity` is symmetric, every
successfully returned value lies in `[-1, 1]` (in particular for non-zero
equal-length vectors), a zero-magnitude operand yields exactly `0` rather
than a division by zero, and unequal lengths raise the dimension-mismatch
error. -/
theorem claim_C8_cosine :
    (∀ a b : List ℝ, calculateCosineSimilarity a b = calculateCosineSimilarity b a) ∧
      (∀ (a b : List ℝ) (r : ℝ), calculateCosineSimilarity a b = Except.ok r →
        -1 ≤ r ∧ r ≤ 1) ∧
      (∀ a b : List ℝ, a.length = b.length →
        magnitude a = 0 ∨ magnitude b = 0 →
        calculateCosineSimilarity a b = Except.ok 0) ∧
      (∀ a b : List ℝ, a.length ≠ b.length →
        calculateCosineSimilarity a b = Except.error "Vectors must have the same length") := by
  refine ⟨?_, ?_, ?_, ?_⟩
  · intro a b
    unfold calculateCosineSimilarity
    by_cases hlen : a.length = b.length
    · have h1 : ¬(a.length ≠ b.length) := fun hc => hc hlen
      have h2 : ¬(b.length ≠ a.length) := fun hc => hc hlen.symm
      rw [if_neg h1, if_neg h2]
      by_cases hm : magnitude a = 0 ∨ magnitude b = 0
      · rw [if_pos hm, if_pos (Or.symm hm)]
      · rw [if_neg hm, if_neg (fun hq => hm (Or.symm hq))]
        rw [dotProduct_comm, mul_comm (magnitude a) (magnitude b)]
    · have h1 : a.length ≠ b.length := hlen
      have h2 : b.length ≠ a.length := fun h => hlen h.symm
      rw [if_pos h1, if_pos h2]
  · intro a b r hr
    unfold calculateCosineSimilarity at hr
    by_cases hlen : a.length = b.length
    · have h1 : ¬(a.length ≠ b.length) := fun hc => hc hlen
      rw [if_neg h1] at hr
      by_cases hm : magnitude a = 0 ∨ magnitude b = 0
      · rw [if_pos hm] at hr
        simp only [Except.ok.injEq] at hr
        subst hr
        norm_num
      · rw [if_neg hm] at hr
        simp only [Except.ok.injEq] at hr
        subst hr
        push_neg at hm
        have hApos : 0 < magnitude a :=
          lt_of_le_of_ne (Real.sqrt_nonneg _) (Ne.symm hm.1)
        have hBpos : 0 < magnitude b :=
          lt_of_le_of_ne (Real.sqrt_nonneg _) (Ne.symm hm.2)
        have hprod : magnitude a * magnitude b =
            Real.sqrt (dotProduct a a * dotProduct b b) :=
          (Real.sqrt_mul (dotProduct_self_nonneg a) _).symm
        have habs : |dotProduct a b| ≤ magnitude a * magnitude b := by
          rw [hprod]
          exact Real.abs_le_sqrt (dotProduct_sq_le a b hlen)
        have hD : 0 < magnitude a * magnitude b := mul_pos hApos hBpos
        have : |dotProduct a b / (magnitude a * magnitude b)| ≤ 1 := by
          rw [abs_div, abs_of_pos hD]
          exact (div_le_one hD).mpr habs
        exact abs_le.mp this
    · rw [if_pos hlen] at hr
      simp at hr
  · intro a b hlen hm
    unfold calculateCosineSimilarity
    have h1 : ¬(a.length ≠ b.length) := fun hc => hc hlen
    rw [if_neg h1, if_pos hm]
  · intro a b h
    unfold calculateCosineSimilarity
    rw [if_pos h]

theorem magnitude_single_one : magnitude [(1 : ℝ)] = 1 := by
  unfold magnitude dotProduct
  norm_num

theorem magnitude_single_zero : magnitude [(0 : ℝ)] = 0 := by
  unfold magnitude dotProduct
  norm_num

theorem calcCos_one_one :
    calculateCosineSimilarity [(1 : ℝ)] [1] = Except.ok 1 := by
  unfold calculateCosineSimilarity
  rw [if_neg (by norm_num), if_neg (by norm_num [magnitude_single_one])]
  norm_num [dotProduct, magnitude_single_one]

/-- Witness for C8: symmetry at `[3]`, `[4]`; bounds at the exact value
returned for `[1]`, `[1]`; the zero-magnitude case at `[0]`, `[1]`; and the
mismatch error at `[1]` versus `[]`. -/
theorem claim_C8_cosine_witness :
    calculateCosineSimilarity [(3 : ℝ)] [4] = calculateCosineSimilarity [4] [3] ∧
      (-1 ≤ (1 : ℝ) ∧ (1 : ℝ) ≤ 1) ∧
      ([(0 : ℝ)].length = [(1 : ℝ)].length ∧ magnitude [(0 : ℝ)] = 0 ∧
        calculateCosineSimilarity [(0 : ℝ)] [1] = Except.ok 0) ∧
      ([(1 : ℝ)].length ≠ ([] : List ℝ).length ∧
        calculateCosineSimilarity [1] [] = Except.error "Vectors must have the same length") :=
  ⟨claim_C8_cosine.1 [3] [4],
    claim_C8_cosine.2.1 [1] [1] 1 calcCos_one_one,
    ⟨rfl, magnitude_single_zero,
      claim_C8_cosine.2.2.1 [0] [1] rfl (Or.inl magnitude_single_zero)⟩,
    ⟨by norm_num, claim_C8_cosine.2.2.2 [1] [] (by norm_num)⟩⟩

end WhatsappMcp
